import Mathlib

/-!
Verification of the album-art "now playing" engine.

Shallow embedding of the three core components:
* the polling/selection engine (`src/album_art/services/poller.py`),
* the debounced playback state machine (`src/album_art/services/state.py`),
* the iTunes artwork resolver (`src/album_art/sources/itunes.py`).

Machine integers do not occur; timestamps (`datetime.now()`, `time.time()`)
are modelled as `Nat` instants supplied by the caller.  Network I/O and the
wall clock are passed in explicitly, so every Python function becomes a pure
Lean function on an explicit state.
-/

/-! ## Data model: `TrackInfo` (sources/base.py) -/

/-- Structure `TrackInfo` from `sources/base.py`.  `datetime` fields are `Nat` instants;
the untyped `upcoming_queue_items` dicts are modelled as association lists. -/
structure TrackInfo where
  source : String
  title : String
  artist : String
  album : String
  album_art_url : Option String
  is_playing : Bool
  position_ms : Option Int := none
  duration_ms : Option Int := none
  timestamp : Nat := 0
  art_source : String := "sonos"
  art_source_reason : String := ""
  upcoming_art_urls : List String := []
  room_name : Option String := none
  original_sonos_art_url : Option String := none
  upcoming_queue_items : List (List (String × String)) := []
  queue_in_use : Bool := false
deriving DecidableEq, Repr

/-! ## Playback state machine (services/state.py) -/

/-- Structure `PlaybackState` from `services/state.py`.  Subscriber callbacks are opaque
async sinks; we model each subscriber by an identifier, and a notification
round by the list of `(subscriber, payload)` deliveries it performs. -/
structure PlaybackState where
  current_track : Option TrackInfo := none
  last_updated : Nat := 0
  subscribers : List Nat := []
  consecutive_none_count : Nat := 0
  none_threshold : Nat := 2
deriving DecidableEq, Repr

/-- Method `PlaybackState._tracks_equal`: semantic equality of two optional tracks,
comparing source, title, artist, album and the playing flag only. -/
def tracksEqual : Option TrackInfo → Option TrackInfo → Bool
  | none, none => true
  | none, some _ => false
  | some _, none => false
  | some a, some b =>
    a.source == b.source && a.title == b.title && a.artist == b.artist
      && a.album == b.album && a.is_playing == b.is_playing

/-- The tail of `PlaybackState.update` after the grace-period check: the
change check, the state write and the notification round.  `count` is the
value `_consecutive_none_count` holds when control reaches this point. -/
def finishUpdate (s : PlaybackState) (count : Nat) (track : Option TrackInfo)
    (now : Nat) : PlaybackState × List (Nat × Option TrackInfo) :=
  if tracksEqual s.current_track track then
    ({ s with consecutive_none_count := count }, [])
  else
    ({ s with current_track := track, last_updated := now,
              consecutive_none_count := count },
     s.subscribers.map (fun i => (i, track)))

/-- Method `PlaybackState.update`: grace-period debounce, change detection and
subscriber notification.  Returns the new state together with the list of
deliveries of the notification round (empty when no round runs; subscriber
exceptions are swallowed by `_safe_notify`, so a delivery is always made to
each subscriber of the round). -/
def PlaybackState.update (s : PlaybackState) (track : Option TrackInfo)
    (now : Nat) : PlaybackState × List (Nat × Option TrackInfo) :=
  if track.isNone && s.current_track.isSome then
    let c := s.consecutive_none_count + 1
    if c < s.none_threshold then
      ({ s with consecutive_none_count := c }, [])
    else
      finishUpdate s c track now
  else
    finishUpdate s 0 track now

/-! ## Polling engine (services/poller.py) -/

/-- Outcome of awaiting one adapter's `get_current_track()` under
`asyncio.gather(..., return_exceptions=True)`: a `TrackInfo`, a `None`
("available but nothing playing"), or a raised exception captured as a
value.  Only `TrackInfo` results survive the `isinstance` filter. -/
inductive PollResult where
  | track (t : TrackInfo)
  | empty
  | err
deriving DecidableEq, Repr

/-- One source adapter as the poll loop sees it: its `is_available` flag and
the outcome its `get_current_track()` would produce this tick. -/
structure Source where
  is_available : Bool
  result : PollResult
deriving DecidableEq, Repr

/-- The `isinstance(r, TrackInfo)` filter on one gathered result. -/
def resultTrack : PollResult → Option TrackInfo
  | .track t => some t
  | .empty => none
  | .err => none

/-- The list `tracks = [r for r in results if isinstance(r, TrackInfo)]` applied to the
results of the available adapters, in adapter iteration order. -/
def collectTracks (sources : List Source) : List TrackInfo :=
  ((sources.filter (·.is_available)).map (·.result)).filterMap resultTrack

/-- Python's `max(tracks, key=lambda t: t.timestamp)`: fold keeping the
current best, replacing it only on a strictly larger key, so the first
maximal element wins. -/
def maxByTimestamp (best : TrackInfo) : List TrackInfo → TrackInfo
  | [] => best
  | t :: ts => maxByTimestamp (if best.timestamp < t.timestamp then t else best) ts

/-- Number of `get_current_track()` coroutines built (and awaited by
`asyncio.gather`) in one tick: one per available adapter.  When no adapter is
available the function returns before `gather`, so no call is issued. -/
def issuedCalls (sources : List Source) : Nat :=
  (sources.filter (·.is_available)).length

/-- Method `Poller._poll_sources`: filter available adapters, gather their results
with exceptions captured, keep the `TrackInfo` results, then select: a
playing track from the preferred `"spotify"` source, else the first playing
track, else the most recently captured track, else nothing. -/
def pollSources (sources : List Source) : Option TrackInfo :=
  if (sources.filter (·.is_available)).isEmpty then none
  else
    match collectTracks sources with
    | [] => none
    | t0 :: rest =>
      match (t0 :: rest).filter (·.is_playing) with
      | [] => some (maxByTimestamp t0 rest)
      | p :: ps => some (((p :: ps).find? (fun t => t.source == "spotify")).getD p)

/-! ## iTunes artwork resolver (sources/itunes.py) -/

/-- Python's `str.lower()` (ASCII case folding, as exercised here). -/
def strLower (s : String) : String :=
  String.mk (s.data.map Char.toLower)

/-- Python's `str.strip()`: drop whitespace from both ends. -/
def trimChars (cs : List Char) : List Char :=
  (((cs.dropWhile Char.isWhitespace).reverse).dropWhile Char.isWhitespace).reverse

/-- Python's `str.strip()` on strings. -/
def strTrim (s : String) : String :=
  String.mk (trimChars s.data)

/-- The keywords of the two edition-marker regexes, matched case-insensitively
inside a parenthesised or bracketed group. -/
def editionKeywords : List (List Char) :=
  ["edition".data, "deluxe".data, "remaster".data, "bonus".data,
   "anniversary".data, "version".data]

/-- Python's containment test `needle in hay` on character sequences: some
contiguous run of `hay` equals `needle` (true for the empty needle). -/
def containsSeq (needle : List Char) : List Char → Bool
  | [] => needle.isEmpty
  | c :: hay => needle.isPrefixOf (c :: hay) || containsSeq needle hay

/-- Does a delimiter-free group body contain one of the edition keywords,
case-insensitively? -/
def containsKeyword (content : List Char) : Bool :=
  editionKeywords.any (fun k => containsSeq k (content.map Char.toLower))

/-- One attempt of the edition-marker pattern
`\s*\(open\)[^close]*keyword[^close]*\(close\)` at the current position:
greedy whitespace, the opening delimiter, a close-free body containing a
keyword, the closing delimiter.  Returns the remainder after the match. -/
def tryMatchMarker (oc cc : Char) (cs : List Char) : Option (List Char) :=
  match cs.dropWhile (fun c => c.isWhitespace) with
  | c :: inner =>
    if c = oc then
      match inner.dropWhile (fun d => d ≠ cc) with
      | _ :: tail =>
        if containsKeyword (inner.takeWhile (fun d => d ≠ cc)) then some tail
        else none
      | [] => none
    else none
  | [] => none

/-- Python's `re.sub(pattern, "", s)` for the edition-marker pattern: scan left to
right, removing each non-overlapping match and resuming after it.  The fuel
argument (initially the length of the text) bounds the scan. -/
def removeMarkedAux (oc cc : Char) : Nat → List Char → List Char
  | 0, cs => cs
  | _ + 1, [] => []
  | fuel + 1, c :: cs =>
    match tryMatchMarker oc cc (c :: cs) with
    | some rest => removeMarkedAux oc cc fuel rest
    | none => c :: removeMarkedAux oc cc fuel cs

/-- Remove every edition-marker group delimited by `oc`/`cc` from the text. -/
def removeMarked (oc cc : Char) (cs : List Char) : List Char :=
  removeMarkedAux oc cc cs.length cs

/-- Function `_clean_album_name`: strip parenthesised then bracketed edition markers,
then trim surrounding whitespace. -/
def cleanAlbumName (album : String) : String :=
  strTrim (String.mk (removeMarked '[' ']' (removeMarked '(' ')' album.data)))

/-- Python's substring test `needle in hay` on strings. -/
def strContains (hay needle : String) : Bool :=
  containsSeq needle.data hay.data

/-- Python's `str.replace`: replace non-overlapping occurrences of `pat` left to
right (the fuel, initially the length of the text, bounds the scan; the
pattern in the source, `"100x100bb"`, is never empty). -/
def replaceAllAux (pat repl : List Char) : Nat → List Char → List Char
  | 0, cs => cs
  | _ + 1, [] => []
  | fuel + 1, c :: cs =>
    if pat ≠ [] ∧ pat.isPrefixOf (c :: cs) then
      repl ++ replaceAllAux pat repl fuel ((c :: cs).drop pat.length)
    else
      c :: replaceAllAux pat repl fuel cs

/-- Python's `s.replace(pat, repl)` on strings. -/
def strReplace (s pat repl : String) : String :=
  String.mk (replaceAllAux pat.data repl.data s.data.length s.data)

/-- One candidate object of the search response; absent keys are the empty
string, as produced by `result.get(key, "")`. -/
structure SearchResult where
  artistName : String
  collectionName : String
  artworkUrl100 : String
deriving DecidableEq, Repr

/-- Outcome of the HTTP round trip `client.get` / `raise_for_status` /
`resp.json()`: a parsed result list, a timeout, an HTTP status error, or any
other exception. -/
inductive NetResponse where
  | ok (results : List SearchResult)
  | timeout
  | httpError (status : Nat)
  | failure
deriving DecidableEq, Repr

/-- One entry of the module dict `_artwork_cache`: an optional resolved URL
together with a reason string. -/
structure CacheEntry where
  url : Option String
  reason : String
deriving DecidableEq, Repr

/-- The module-level mutable state of `sources/itunes.py`: the artwork cache
(a dict, modelled as an association list where the head entry for a key
shadows older ones) and the rate-limit gate timestamp. -/
structure ItunesState where
  artwork_cache : List (String × CacheEntry) := []
  rate_limit_until : Nat := 0
deriving DecidableEq, Repr

/-- The two settings `get_itunes_artwork` reads:
`settings.artwork.prefer_itunes` and `settings.artwork.itunes_size`. -/
structure ItunesEnv where
  prefer_itunes : Bool
  itunes_size : Nat
deriving DecidableEq, Repr

/-- The cache key: artist and album joined by a pipe character, lowercased
and stripped. -/
def normKey (artist album : String) : String :=
  strTrim (strLower (artist ++ "|" ++ album))

/-- The high-resolution rewrite of a matched artwork URL: replace the
`100x100bb` size token with the configured size. -/
def highResUrl (size : Nat) (art_url : String) : String :=
  strReplace art_url "100x100bb" (toString size ++ "x" ++ toString size ++ "bb")

/-- The matching loop over the candidate results: skip candidates with an
empty (lowered) artist or album, require bidirectional substring containment
for both artist and album, and accept the first match with a non-empty
artwork URL, rewritten to high resolution. -/
def findMatch (artist_lower album_lower : String) (size : Nat) :
    List SearchResult → Option String
  | [] => none
  | r :: rs =>
    let result_artist := strLower r.artistName
    let result_album := strLower r.collectionName
    if result_artist = "" ∨ result_album = "" then
      findMatch artist_lower album_lower size rs
    else
      let artist_match := strContains result_artist artist_lower
        || strContains artist_lower result_artist
      let album_match := strContains result_album album_lower
        || strContains album_lower result_album
      if artist_match && album_match then
        if r.artworkUrl100 ≠ "" then some (highResUrl size r.artworkUrl100)
        else findMatch artist_lower album_lower size rs
      else findMatch artist_lower album_lower size rs

/-- What one call to `get_itunes_artwork` produces: the returned
`(url, reason)` pair, the module state after the call, and whether an HTTP
request was issued. -/
structure ItunesOutcome where
  url : Option String
  reason : String
  state : ItunesState
  requested : Bool
deriving DecidableEq, Repr

/-- Function `get_itunes_artwork(artist, album)`.  `now` is the value of
`time.time()` during the call and `net` the outcome the network would
produce for the search request, making the function pure. -/
def get_itunes_artwork (env : ItunesEnv) (st : ItunesState) (now : Nat)
    (net : NetResponse) (artist album : String) : ItunesOutcome :=
  if !env.prefer_itunes then ⟨none, "disabled", st, false⟩
  else
    let cache_key := normKey artist album
    match st.artwork_cache.lookup cache_key with
    | some cached => ⟨cached.url, "cached (" ++ cached.reason ++ ")", st, false⟩
    | none =>
      if now < st.rate_limit_until then ⟨none, "rate limited", st, false⟩
      else
        let clean_album := cleanAlbumName album
        let query := strTrim (artist ++ " " ++ clean_album)
        if query = "" then ⟨none, "no query", st, false⟩
        else
          match net with
          | .ok results =>
            if results.isEmpty then
              ⟨none, "not found",
               { st with artwork_cache :=
                   (cache_key, ⟨none, "not found"⟩) :: st.artwork_cache }, true⟩
            else
              match findMatch (strLower artist) (strLower clean_album)
                  env.itunes_size results with
              | some high_res_url =>
                ⟨some high_res_url, "matched",
                 { st with artwork_cache :=
                     (cache_key, ⟨some high_res_url, "matched"⟩)
                       :: st.artwork_cache }, true⟩
              | none =>
                ⟨none, "no album match",
                 { st with artwork_cache :=
                     (cache_key, ⟨none, "no album match"⟩)
                       :: st.artwork_cache }, true⟩
          | .timeout => ⟨none, "timeout", st, true⟩
          | .httpError status =>
            if status = 429 then
              ⟨none, "rate limited",
               { st with rate_limit_until := now + 60 }, true⟩
            else ⟨none, "http error", st, true⟩
          | .failure => ⟨none, "error", st, true⟩

/-! ## Concrete sample values used by witnesses and counterexamples -/

/-- A non-empty snapshot, playing, from the speaker source. -/
def sampleTrack : TrackInfo :=
  { source := "sonos", title := "Song", artist := "Artist", album := "Album",
    album_art_url := none, is_playing := true }

/-- An occupied playback state with two subscribers and a fresh grace
counter. -/
def sampleState : PlaybackState :=
  { current_track := some sampleTrack, subscribers := [1, 2] }

/-- Resolver settings with the feature enabled and the default 600px size. -/
def sampleEnv : ItunesEnv :=
  { prefer_itunes := true, itunes_size := 600 }

/-! ## State-machine lemmas (services/state.py) -/

/-- Lemma: `finishUpdate` stores exactly the counter value it is handed. -/
theorem finishUpdate_count (s : PlaybackState) (c : Nat) (track : Option TrackInfo)
    (now : Nat) : (finishUpdate s c track now).1.consecutive_none_count = c := by
  unfold finishUpdate
  split <;> rfl

/-- Lemma: `finishUpdate` leaves the threshold alone, stores the handed counter, and
either keeps the current track or installs the offered one. -/
theorem finishUpdate_some_fields (s : PlaybackState) (c : Nat) (t : TrackInfo)
    (now : Nat) :
    (finishUpdate s c (some t) now).1.none_threshold = s.none_threshold
    ∧ (finishUpdate s c (some t) now).1.consecutive_none_count = c
    ∧ ((finishUpdate s c (some t) now).1.current_track = s.current_track
        ∨ (finishUpdate s c (some t) now).1.current_track = some t) := by
  unfold finishUpdate
  split <;> simp

/-- An Empty update against an occupied state still inside the grace window
only bumps the counter. -/
theorem update_none_grace (s : PlaybackState) (now : Nat)
    (h : s.current_track.isSome = true)
    (hlt : s.consecutive_none_count + 1 < s.none_threshold) :
    PlaybackState.update s none now
      = ({ s with consecutive_none_count := s.consecutive_none_count + 1 }, []) := by
  simp [PlaybackState.update, h, hlt]

/-- An Empty update against an occupied state at the grace threshold clears
the track, keeps the bumped counter and notifies every subscriber with the
empty marker. -/
theorem update_none_clear (s : PlaybackState) (t : TrackInfo) (now : Nat)
    (h : s.current_track = some t)
    (hge : s.none_threshold ≤ s.consecutive_none_count + 1) :
    PlaybackState.update s none now
      = ({ s with current_track := none, last_updated := now,
                  consecutive_none_count := s.consecutive_none_count + 1 },
         s.subscribers.map (fun i => (i, none))) := by
  have hns : ¬ (s.consecutive_none_count + 1 < s.none_threshold) := not_lt.mpr hge
  simp [PlaybackState.update, h, hns, finishUpdate, tracksEqual]

/-- A non-empty update always goes through the change check with a reset
counter. -/
theorem update_some_track (s : PlaybackState) (t : TrackInfo) (now : Nat) :
    PlaybackState.update s (some t) now = finishUpdate s 0 (some t) now := by
  simp [PlaybackState.update]

/-- An Empty update against an already-empty state resets the counter and
notifies nobody. -/
theorem update_none_empty (s : PlaybackState) (now : Nat)
    (h : s.current_track = none) :
    PlaybackState.update s none now = ({ s with consecutive_none_count := 0 }, []) := by
  simp [PlaybackState.update, h, finishUpdate, tracksEqual]

/-- C2: from `Occupied(S)` with a fresh grace counter and the code's
threshold of 2, one Empty update keeps `S` and notifies nobody, and a second
consecutive Empty update clears the state and delivers exactly one
empty-marker notification to each subscriber. -/
theorem grace_period_two_empties (s : PlaybackState) (t : TrackInfo)
    (now₁ now₂ : Nat) (hcur : s.current_track = some t)
    (hcnt : s.consecutive_none_count = 0) (hthr : s.none_threshold = 2) :
    (PlaybackState.update s none now₁).1.current_track = some t
    ∧ (PlaybackState.update s none now₁).2 = []
    ∧ (PlaybackState.update (PlaybackState.update s none now₁).1 none now₂).1.current_track = none
    ∧ (PlaybackState.update (PlaybackState.update s none now₁).1 none now₂).2
        = s.subscribers.map (fun i => (i, none)) := by
  have h1 : PlaybackState.update s none now₁
      = ({ s with consecutive_none_count := s.consecutive_none_count + 1 }, []) :=
    update_none_grace s now₁ (by simp [hcur]) (by omega)
  have h2 : PlaybackState.update ({ s with consecutive_none_count := s.consecutive_none_count + 1 }) none now₂
      = ({ s with current_track := none, last_updated := now₂,
                  consecutive_none_count := s.consecutive_none_count + 1 + 1 },
         s.subscribers.map (fun i => (i, none))) :=
    update_none_clear _ t now₂ (by simpa using hcur) (by simp; omega)
  rw [h1]
  exact ⟨by simpa using hcur, rfl, by rw [h2], by rw [h2]⟩

/-- C2 witness: the two-empties scenario evaluated on a concrete occupied
state with two subscribers. -/
theorem grace_period_two_empties_witness :
    (PlaybackState.update sampleState none 1).1.current_track = some sampleTrack
    ∧ (PlaybackState.update (PlaybackState.update sampleState none 1).1 none 2).2
        = sampleState.subscribers.map (fun i => (i, none)) := by
  have h := grace_period_two_empties sampleState sampleTrack 1 2 (by decide) (by decide) (by decide)
  exact ⟨h.1, h.2.2.2⟩

/-- C3 counterexample: on the concrete run `Occupied(S)`, Empty, Empty, the
second Empty transitions the state to Empty but leaves the counter at the
threshold value 2 instead of resetting it to 0. -/
theorem counter_not_reset_counterexample :
    (PlaybackState.update sampleState none 1).1.current_track = some sampleTrack
    ∧ (PlaybackState.update (PlaybackState.update sampleState none 1).1 none 2).1.current_track = none
    ∧ (PlaybackState.update (PlaybackState.update sampleState none 1).1 none 2).1.consecutive_none_count = 2
    ∧ ¬ (PlaybackState.update (PlaybackState.update sampleState none 1).1 none 2).1.consecutive_none_count = 0 := by
  decide

/-- C3 (amended): after an update the counter is 0 whenever a snapshot was
offered or the state was already empty; it is the old counter plus one when
an Empty update hits a non-empty state (also on the update that clears the
state, where it retains the threshold value and is reset to 0 by the next
update); and in the sequence Occupied(S), Empty, Occupied(S'), Empty the
state is still occupied after the final update. -/
theorem update_counter_invariant (s : PlaybackState) (track : Option TrackInfo)
    (now : Nat) :
    ((track.isSome = true ∨ s.current_track = none) →
      (PlaybackState.update s track now).1.consecutive_none_count = 0)
    ∧ (track = none → s.current_track.isSome = true →
      (PlaybackState.update s track now).1.consecutive_none_count
        = s.consecutive_none_count + 1)
    ∧ (track = none → s.current_track.isSome = true →
        s.none_threshold ≤ s.consecutive_none_count + 1 →
        (PlaybackState.update s track now).1.current_track = none
        ∧ ∀ track₂ now₂,
          (PlaybackState.update (PlaybackState.update s track now).1 track₂ now₂).1.consecutive_none_count = 0)
    ∧ (s.consecutive_none_count = 0 → s.none_threshold = 2 →
        s.current_track.isSome = true →
        ∀ t₂ now₁ now₂ now₃,
          ((PlaybackState.update
            ((PlaybackState.update
              ((PlaybackState.update s none now₁).1) (some t₂) now₂).1) none now₃).1.current_track).isSome = true) := by
  refine ⟨?_, ?_, ?_, ?_⟩
  · rintro (h | h)
    · obtain ⟨t, rfl⟩ := Option.isSome_iff_exists.mp h
      rw [update_some_track, finishUpdate_count]
    · cases track with
      | none => rw [update_none_empty _ _ h]
      | some t => rw [update_some_track, finishUpdate_count]
  · rintro rfl h
    obtain ⟨t, ht⟩ := Option.isSome_iff_exists.mp h
    by_cases hlt : s.consecutive_none_count + 1 < s.none_threshold
    · rw [update_none_grace _ _ h hlt]
    · rw [update_none_clear _ t _ ht (not_lt.mp hlt)]
  · rintro rfl h hge
    obtain ⟨t, ht⟩ := Option.isSome_iff_exists.mp h
    rw [update_none_clear _ t _ ht hge]
    refine ⟨rfl, fun track₂ now₂ => ?_⟩
    cases track₂ with
    | none => rw [update_none_empty _ _ rfl]
    | some t₂ => rw [update_some_track, finishUpdate_count]
  · intro hcnt hthr h t₂ now₁ now₂ now₃
    rw [update_none_grace _ _ h (by omega)]
    dsimp only
    rw [update_some_track]
    have hf := finishUpdate_some_fields
      { s with consecutive_none_count := s.consecutive_none_count + 1 } 0 t₂ now₂
    have hcur₂ : (finishUpdate
        { s with consecutive_none_count := s.consecutive_none_count + 1 }
        0 (some t₂) now₂).1.current_track.isSome = true := by
      rcases hf.2.2 with hs | hs <;> rw [hs]
      · exact h
      · rfl
    have hlt₃ : (finishUpdate
        { s with consecutive_none_count := s.consecutive_none_count + 1 }
        0 (some t₂) now₂).1.consecutive_none_count + 1
        < (finishUpdate
            { s with consecutive_none_count := s.consecutive_none_count + 1 }
            0 (some t₂) now₂).1.none_threshold := by
      rw [hf.2.1, hf.1]
      show 0 + 1 < s.none_threshold
      omega
    rw [update_none_grace _ now₃ hcur₂ hlt₃]
    exact hcur₂

/-- A second snapshot differing from `sampleTrack` in title only. -/
def sampleTrack2 : TrackInfo := { sampleTrack with title := "Other Song" }

/-- A snapshot equal to `sampleTrack` except in timestamp, position and art
URL — the fields excluded from semantic equality. -/
def sampleTrackShifted : TrackInfo :=
  { sampleTrack with timestamp := 99, position_ms := some 1234,
                     album_art_url := some "http://x/art.jpg" }

/-- C3 witness: on the concrete occupied state, one Empty update bumps the
counter to 1, and the sequence Empty, Occupied(S'), Empty leaves the state
occupied. -/
theorem update_counter_invariant_witness :
    (PlaybackState.update sampleState none 5).1.consecutive_none_count = 1
    ∧ ((PlaybackState.update
        ((PlaybackState.update
          ((PlaybackState.update sampleState none 1).1) (some sampleTrack2) 2).1) none 3).1.current_track).isSome = true := by
  have h5 := update_counter_invariant sampleState none 5
  have h0 := update_counter_invariant sampleState none 0
  refine ⟨?_, h0.2.2.2 (by decide) (by decide) (by decide) sampleTrack2 1 2 3⟩
  exact (h5.2.1 rfl (by decide)).trans (by decide)

/-- C4: two non-empty snapshots are semantically equal exactly when source,
title, artist, album and the playing flag coincide (position, duration,
timestamp and art fields are not consulted), and updating an occupied state
with a semantically equal snapshot changes nothing and notifies nobody. -/
theorem semantic_equality_no_notification (a b : TrackInfo) (s : PlaybackState)
    (now : Nat) :
    (tracksEqual (some a) (some b) = true ↔
      (a.source = b.source ∧ a.title = b.title ∧ a.artist = b.artist
        ∧ a.album = b.album ∧ a.is_playing = b.is_playing))
    ∧ (s.current_track = some a → tracksEqual (some a) (some b) = true →
        (PlaybackState.update s (some b) now).1.current_track = some a
        ∧ (PlaybackState.update s (some b) now).2 = []) := by
  constructor
  · simp [tracksEqual, and_assoc]
  · intro hcur heq
    rw [update_some_track]
    unfold finishUpdate
    rw [hcur, heq]
    simp [hcur]

/-- C4 witness: a snapshot differing from the current one only in timestamp,
position and art URL is absorbed with no transition and no notification. -/
theorem semantic_equality_no_notification_witness :
    (PlaybackState.update sampleState (some sampleTrackShifted) 7).1.current_track = some sampleTrack
    ∧ (PlaybackState.update sampleState (some sampleTrackShifted) 7).2 = [] := by
  have h := semantic_equality_no_notification sampleTrack sampleTrackShifted sampleState 7
  exact h.2 (by decide) (by decide)

/-! ## Resolver lemmas (sources/itunes.py) -/

/-- Consing a fresh key onto the cache keeps every existing entry
retrievable. -/
theorem lookup_cons_preserve (c : List (String × CacheEntry)) (ck k : String)
    (v e : CacheEntry) (hk : c.lookup k = some e) (hck : c.lookup ck = none) :
    ((ck, v) :: c).lookup k = some e := by
  have hne : (k == ck) = false := by
    by_cases h : k = ck
    · subst h
      rw [hk] at hck
      cases hck
    · exact beq_eq_false_iff_ne.mpr h
  simp [List.lookup, hne, hk]

/-- A cache-hit reason `"cached (…)"` is at least nine characters long, so it
never coincides with the short fixed reason codes. -/
theorem cached_prefix_ne (s t : String) (hlen : t.length ≤ 8) :
    "cached (" ++ s ++ ")" ≠ t := by
  intro h
  have hl := congrArg String.length h
  rw [String.length_append, String.length_append] at hl
  have h8 : ("cached (" : String).length = 8 := rfl
  have h1 : (")" : String).length = 1 := rfl
  omega

/-- A successful `findMatch` is produced by some candidate of the list whose
lowered artist name is non-empty and satisfies the bidirectional substring
containment against the query artist. -/
theorem findMatch_some_candidate (al bl : String) (size : Nat)
    (results : List SearchResult) (url : String)
    (hfm : findMatch al bl size results = some url) :
    ∃ r ∈ results, strLower r.artistName ≠ ""
      ∧ (strContains (strLower r.artistName) al = true
         ∨ strContains al (strLower r.artistName) = true) := by
  induction results with
  | nil => simp [findMatch] at hfm
  | cons r rs ih =>
    simp only [findMatch] at hfm
    split at hfm
    · obtain ⟨c, hc, hprop⟩ := ih hfm
      exact ⟨c, List.mem_cons_of_mem r hc, hprop⟩
    · rename_i hne
      split at hfm
      · rename_i hmatch
        split at hfm
        · refine ⟨r, List.mem_cons_self r rs, ?_, ?_⟩
          · intro h0
            exact hne (Or.inl h0)
          · have := (Bool.and_eq_true _ _).mp hmatch
            exact (Bool.or_eq_true _ _).mp this.1
        · obtain ⟨c, hc, hprop⟩ := ih hfm
          exact ⟨c, List.mem_cons_of_mem r hc, hprop⟩
      · obtain ⟨c, hc, hprop⟩ := ih hfm
        exact ⟨c, List.mem_cons_of_mem r hc, hprop⟩

/-- C5 (amended): once a key is cached, a later call with the same key is
answered from the cache — same state, no request, the cached URL, and the
reason wrapped as `"cached (original-reason)"` — regardless of the
rate-limit gate; and no call ever removes an existing cache entry. -/
theorem cache_write_once (env : ItunesEnv) (st : ItunesState) (now : Nat)
    (net : NetResponse) (artist album : String)
    (h : env.prefer_itunes = true) :
    (∀ e, st.artwork_cache.lookup (normKey artist album) = some e →
      get_itunes_artwork env st now net artist album
        = ⟨e.url, "cached (" ++ e.reason ++ ")", st, false⟩)
    ∧ (∀ k e, st.artwork_cache.lookup k = some e →
      (get_itunes_artwork env st now net artist album).state.artwork_cache.lookup k
        = some e) := by
  constructor
  · intro e he
    simp [get_itunes_artwork, h, he]
  · intro k e hk
    cases hck : st.artwork_cache.lookup (normKey artist album) with
    | some e' => simp [get_itunes_artwork, h, hck, hk]
    | none =>
      simp only [get_itunes_artwork, h, hck]
      repeat' split
      all_goals first
        | exact hk
        | exact lookup_cons_preserve _ _ _ _ _ hk hck

/-- C5 counterexample: on a concrete repeated lookup the second call returns
the reason `"cached (not found)"` — with a space after `cached` — and not
the spec's `"cached(not found)"`. -/
theorem cached_reason_spacing_counterexample :
    (get_itunes_artwork sampleEnv
        (get_itunes_artwork sampleEnv {} 0 (.ok []) "A" "B").state 0
        (.ok []) "A" "B").reason = "cached (not found)"
    ∧ (get_itunes_artwork sampleEnv
        (get_itunes_artwork sampleEnv {} 0 (.ok []) "A" "B").state 0
        (.ok []) "A" "B").reason ≠ "cached(not found)"
    ∧ (get_itunes_artwork sampleEnv
        (get_itunes_artwork sampleEnv {} 0 (.ok []) "A" "B").state 0
        (.ok []) "A" "B").requested = false := by
  decide

/-- C5 witness: a concrete cache hit, taken while the rate-limit gate is
still active, bypasses the gate and answers from the cache. -/
theorem cache_write_once_witness :
    get_itunes_artwork sampleEnv ⟨[("a|b", ⟨none, "not found"⟩)], 100⟩ 50
        (.ok []) "A" "B"
      = ⟨none, "cached (not found)", ⟨[("a|b", ⟨none, "not found"⟩)], 100⟩, false⟩ := by
  have h := cache_write_once sampleEnv ⟨[("a|b", ⟨none, "not found"⟩)], 100⟩ 50
    (.ok []) "A" "B" rfl
  exact h.1 ⟨none, "not found"⟩ (by decide)

/-- C6: a 429 response on an uncached key with the gate clear advances the
gate to `now + 60`, returns `(none, "rate limited")` and caches nothing;
while the gate is active, any uncached key is answered `(none, "rate
limited")` with no request and no cache write. -/
theorem rate_limit_gate (env : ItunesEnv) (st : ItunesState) (now : Nat)
    (artist album : String) (h : env.prefer_itunes = true)
    (hk : st.artwork_cache.lookup (normKey artist album) = none) :
    (st.rate_limit_until ≤ now →
      strTrim (artist ++ " " ++ cleanAlbumName album) ≠ "" →
      get_itunes_artwork env st now (.httpError 429) artist album
        = ⟨none, "rate limited", { st with rate_limit_until := now + 60 }, true⟩)
    ∧ (now < st.rate_limit_until → ∀ net,
      get_itunes_artwork env st now net artist album
        = ⟨none, "rate limited", st, false⟩) := by
  constructor
  · intro hgate hq
    have hnlt : ¬ (now < st.rate_limit_until) := not_lt.mpr hgate
    simp [get_itunes_artwork, h, hk, hnlt, hq]
  · intro hgate net
    simp [get_itunes_artwork, h, hk, hgate]

/-- C6 witness: a concrete 429 sets the gate to 65 = 5 + 60 without caching,
and a concrete active gate blocks a distinct uncached key without a
request. -/
theorem rate_limit_gate_witness :
    get_itunes_artwork sampleEnv ({} : ItunesState) 5 (.httpError 429) "A2" "B2"
      = ⟨none, "rate limited", ⟨[], 65⟩, true⟩
    ∧ get_itunes_artwork sampleEnv ⟨[], 30⟩ 5 (.ok []) "K2" "L2"
      = ⟨none, "rate limited", ⟨[], 30⟩, false⟩ := by
  have h1 := rate_limit_gate sampleEnv {} 5 "A2" "B2" rfl (by decide)
  have h2 := rate_limit_gate sampleEnv ⟨[], 30⟩ 5 "K2" "L2" rfl (by decide)
  exact ⟨h1.1 (by decide) (by decide), h2.2 (by decide) (.ok [])⟩

/-- C7: a `"matched"` resolution is justified by some candidate with a
non-empty artist name satisfying bidirectional case-insensitive substring
containment against the query artist, and a candidate whose artist field is
empty is skipped by the matching loop no matter what its album fields hold. -/
theorem candidate_artist_match_required (env : ItunesEnv) (st : ItunesState)
    (now : Nat) (results : List SearchResult) (artist album : String)
    (r : SearchResult) (rs : List SearchResult) (al bl : String) (size : Nat) :
    ((get_itunes_artwork env st now (.ok results) artist album).reason = "matched" →
      ∃ c ∈ results, strLower c.artistName ≠ ""
        ∧ (strContains (strLower c.artistName) (strLower artist) = true
           ∨ strContains (strLower artist) (strLower c.artistName) = true))
    ∧ (strLower r.artistName = "" →
        findMatch al bl size (r :: rs) = findMatch al bl size rs) := by
  constructor
  · intro hr
    simp only [get_itunes_artwork] at hr
    split at hr
    · simp at hr
    · split at hr
      · exact absurd hr (cached_prefix_ne _ "matched" (by decide))
      · split at hr
        · simp at hr
        · split at hr
          · simp at hr
          · split at hr
            · simp at hr
            · split at hr
              · rename_i url heq
                exact findMatch_some_candidate _ _ _ _ _ heq
              · simp at hr
  · intro hempty
    simp [findMatch, hempty]

/-- C7 witness: a concrete matched lookup yields a containment-satisfying
candidate, and a concrete empty-artist candidate is skipped even though its
album text matches the query exactly. -/
theorem candidate_artist_match_required_witness :
    (∃ c ∈ [(⟨"beatles", "abbey road", "http://a/100x100bb.jpg"⟩ : SearchResult)],
      strLower c.artistName ≠ ""
        ∧ (strContains (strLower c.artistName) (strLower "The Beatles") = true
           ∨ strContains (strLower "The Beatles") (strLower c.artistName) = true))
    ∧ findMatch "the beatles" "abbey road" 600
        [⟨"", "abbey road", "http://a/100x100bb.jpg"⟩]
      = findMatch "the beatles" "abbey road" 600 [] := by
  have h := candidate_artist_match_required sampleEnv {} 0
    [⟨"beatles", "abbey road", "http://a/100x100bb.jpg"⟩] "The Beatles" "Abbey Road"
    ⟨"", "abbey road", "http://a/100x100bb.jpg"⟩ [] "the beatles" "abbey road" 600
  exact ⟨h.1 (by decide), h.2 (by decide)⟩

/-- C9: evaluation at the failing input.  A non-empty candidate list with no
matching candidate is returned and cached with the reason
`"no album match"`, not the `"no match"` announced by the function's own
docstring (and the spec); the zero-results case does return and cache
`"not found"` as documented. -/
theorem no_match_reason_eval :
    (get_itunes_artwork sampleEnv {} 0
        (.ok [⟨"Completely Different", "Test Album", "u/100x100bb.jpg"⟩])
        "Test Artist" "Test Album").reason = "no album match"
    ∧ ((get_itunes_artwork sampleEnv {} 0
        (.ok [⟨"Completely Different", "Test Album", "u/100x100bb.jpg"⟩])
        "Test Artist" "Test Album").state.artwork_cache.lookup
          "test artist|test album" = some ⟨none, "no album match"⟩)
    ∧ "no album match" ≠ "no match"
    ∧ (get_itunes_artwork sampleEnv {} 0 (.ok []) "Test Artist" "Test Album").reason
        = "not found"
    ∧ ((get_itunes_artwork sampleEnv {} 0 (.ok []) "Test Artist"
        "Test Album").state.artwork_cache.lookup "test artist|test album"
        = some ⟨none, "not found"⟩) := by
  decide

/-- C10: the cache is written only on the matched, no-album-match and
zero-results outcomes; a `"no query"` outcome (blank artist and cleaned
album) returns `(none, "no query")` with no request and the state
untouched, and the blank-query condition forces that outcome whenever the
call gets past the feature gate, the cache and the rate-limit gate. -/
theorem cache_write_paths (env : ItunesEnv) (st : ItunesState) (now : Nat)
    (net : NetResponse) (artist album : String) :
    ((get_itunes_artwork env st now net artist album).reason = "matched"
      ∨ (get_itunes_artwork env st now net artist album).reason = "no album match"
      ∨ (get_itunes_artwork env st now net artist album).reason = "not found"
      ∨ (get_itunes_artwork env st now net artist album).state.artwork_cache
          = st.artwork_cache)
    ∧ ((get_itunes_artwork env st now net artist album).reason = "no query" →
        get_itunes_artwork env st now net artist album = ⟨none, "no query", st, false⟩)
    ∧ (env.prefer_itunes = true →
        st.artwork_cache.lookup (normKey artist album) = none →
        st.rate_limit_until ≤ now →
        strTrim (artist ++ " " ++ cleanAlbumName album) = "" →
        get_itunes_artwork env st now net artist album
          = ⟨none, "no query", st, false⟩) := by
  refine ⟨?_, ?_, ?_⟩
  · simp only [get_itunes_artwork]
    repeat' split
    all_goals first
      | exact Or.inr (Or.inr (Or.inr rfl))
      | exact Or.inl rfl
      | exact Or.inr (Or.inl rfl)
      | exact Or.inr (Or.inr (Or.inl rfl))
  · simp only [get_itunes_artwork]
    repeat' split
    all_goals intro hq
    all_goals first
      | rfl
      | exact absurd hq (cached_prefix_ne _ "no query" (by decide))
      | simp at hq
  · intro h hk hgate hq
    have hnlt : ¬ (now < st.rate_limit_until) := not_lt.mpr hgate
    simp [get_itunes_artwork, h, hk, hnlt, hq]

/-- C10 witness: a concrete call with a whitespace artist and an album that
cleans to the empty string returns `(none, "no query")` with no request and
no cache write. -/
theorem cache_write_paths_witness :
    get_itunes_artwork sampleEnv {} 5 (.ok []) "  " " (Deluxe) "
      = ⟨none, "no query", {}, false⟩ := by
  have h := cache_write_paths sampleEnv {} 5 (.ok []) "  " " (Deluxe) "
  exact h.2.2 rfl (by decide) (by decide) (by decide)

/-! ## Polling lemmas (services/poller.py) -/

/-- When no collected snapshot survives, every available adapter produced an
exception or `None`. -/
theorem collectTracks_eq_nil (sources : List Source)
    (h : ∀ s ∈ sources, s.is_available = true → s.result = .empty ∨ s.result = .err) :
    collectTracks sources = [] := by
  unfold collectTracks
  rw [List.filterMap_eq_nil_iff]
  intro r hr
  obtain ⟨s, hs, rfl⟩ := List.mem_map.mp hr
  have hmem := List.mem_filter.mp hs
  rcases h s hmem.1 (by simpa using hmem.2) with hres | hres <;>
    simp [hres, resultTrack]

/-- A non-empty collection forces at least one available adapter. -/
theorem collect_ne_nil_avail (sources : List Source)
    (h : collectTracks sources ≠ []) :
    (sources.filter (·.is_available)).isEmpty = false := by
  rcases hfe : (sources.filter (·.is_available)) with _ | ⟨a, as⟩
  · exfalso
    apply h
    unfold collectTracks
    rw [hfe]
    rfl
  · rw [hfe]
    rfl

/-- Evaluation of `pollSources` in the case where some collected snapshot is playing. -/
theorem pollSources_playing_case (sources : List Source) (t0 p : TrackInfo)
    (rest ps : List TrackInfo) (htr : collectTracks sources = t0 :: rest)
    (hpl : (t0 :: rest).filter (·.is_playing) = p :: ps) :
    pollSources sources
      = some (((p :: ps).find? (fun t => t.source == "spotify")).getD p) := by
  have hne := collect_ne_nil_avail sources (by rw [htr]; exact List.cons_ne_nil t0 rest)
  simp only [pollSources, hne, htr, hpl, Bool.false_eq_true, if_false]

/-- Evaluation of `pollSources` in the case where no collected snapshot is playing. -/
theorem pollSources_paused_case (sources : List Source) (t0 : TrackInfo)
    (rest : List TrackInfo) (htr : collectTracks sources = t0 :: rest)
    (hpl : (t0 :: rest).filter (·.is_playing) = []) :
    pollSources sources = some (maxByTimestamp t0 rest) := by
  have hne := collect_ne_nil_avail sources (by rw [htr]; exact List.cons_ne_nil t0 rest)
  simp only [pollSources, hne, htr, hpl, Bool.false_eq_true, if_false]

/-- The head of a filtered list is the first element satisfying the
predicate. -/
theorem filter_head_eq_find (p : TrackInfo → Bool) (l : List TrackInfo) :
    (l.filter p).head? = l.find? p := by
  induction l with
  | nil => rfl
  | cons a l ih =>
    by_cases h : p a <;> simp [List.filter_cons, List.find?_cons, h, ih]

/-- C8: with no available adapter, one tick returns "no track" and issues no
`get_current_track` call; when every available adapter fails or returns
nothing, the tick returns "no track"; and an adapter that raises contributes
exactly what an adapter that returns nothing does, leaving every other
adapter's contribution intact — the selection function is total, so a tick
never propagates an adapter exception. -/
theorem poll_sources_never_raises (sources l₁ l₂ : List Source) (e : Source) :
    ((sources.filter (·.is_available)) = [] →
      pollSources sources = none ∧ issuedCalls sources = 0)
    ∧ ((∀ s ∈ sources, s.is_available = true → s.result = .empty ∨ s.result = .err) →
      pollSources sources = none)
    ∧ (e.is_available = true → e.result = .err →
      pollSources (l₁ ++ e :: l₂)
        = pollSources (l₁ ++ { e with result := .empty } :: l₂)) := by
  refine ⟨?_, ?_, ?_⟩
  · intro h
    constructor
    · simp [pollSources, h]
    · simp [issuedCalls, h]
  · intro h
    have hct := collectTracks_eq_nil sources h
    unfold pollSources
    rw [hct]
    simp
  · intro hav he
    unfold pollSources collectTracks
    simp [List.filter_append, List.filter_cons, hav, List.map_append,
      List.filterMap_append, he, resultTrack]

/-- C8 witness: the empty adapter set, an all-failing set, and the
exception-versus-nothing replacement evaluated on concrete adapter lists. -/
theorem poll_sources_never_raises_witness :
    (pollSources [] = none ∧ issuedCalls [] = 0)
    ∧ pollSources [⟨true, .err⟩, ⟨false, .track sampleTrack⟩] = none
    ∧ pollSources [⟨true, .track sampleTrack⟩, ⟨true, .err⟩]
        = pollSources [⟨true, .track sampleTrack⟩, ⟨true, .empty⟩] := by
  have h0 := poll_sources_never_raises [] [] [] ⟨true, .err⟩
  have h1 := poll_sources_never_raises [⟨true, .err⟩, ⟨false, .track sampleTrack⟩]
    [] [] ⟨true, .err⟩
  have h2 := poll_sources_never_raises [] [⟨true, .track sampleTrack⟩] [] ⟨true, .err⟩
  exact ⟨h0.1 rfl, h1.2.1 (by decide), h2.2.2 rfl rfl⟩

/-- Python's first-maximum `max(…, key=timestamp)`: the fold either keeps the
accumulator (when nothing beats it) or returns the first list element that
strictly exceeds the accumulator and is never strictly exceeded later. -/
theorem maxByTimestamp_spec (l : List TrackInfo) : ∀ best : TrackInfo,
    (maxByTimestamp best l = best ∧ ∀ t ∈ l, t.timestamp ≤ best.timestamp)
    ∨ (∃ i, ∃ hi : i < l.length,
        maxByTimestamp best l = l.get ⟨i, hi⟩
        ∧ best.timestamp < (l.get ⟨i, hi⟩).timestamp
        ∧ (∀ t ∈ l, t.timestamp ≤ (l.get ⟨i, hi⟩).timestamp)
        ∧ (∀ j, ∀ hj : j < l.length, j < i →
            (l.get ⟨j, hj⟩).timestamp < (l.get ⟨i, hi⟩).timestamp)) := by
  induction l with
  | nil =>
    intro best
    left
    exact ⟨rfl, by simp⟩
  | cons t ts ih =>
    intro best
    by_cases hlt : best.timestamp < t.timestamp
    · have hstep : maxByTimestamp best (t :: ts) = maxByTimestamp t ts := by
        simp [maxByTimestamp, hlt]
      rcases ih t with ⟨heq, hall⟩ | ⟨i, hi, heq, hbt, hall, hpre⟩
      · right
        refine ⟨0, by simp, ?_, ?_, ?_, ?_⟩
        · rw [hstep, heq]
          rfl
        · simpa using hlt
        · intro u hu
          rcases List.mem_cons.mp hu with rfl | hu
          · simp
          · simpa using hall u hu
        · intro j hj hj0
          omega
      · right
        refine ⟨i + 1, by simpa using hi, ?_, ?_, ?_, ?_⟩
        · rw [hstep, heq]
          rfl
        · exact lt_trans hlt (by simpa using hbt)
        · intro u hu
          rcases List.mem_cons.mp hu with rfl | hu
          · exact le_of_lt (by simpa using hbt)
          · simpa using hall u hu
        · intro j hj hji
          cases j with
          | zero => simpa using hbt
          | succ j' => simpa using hpre j' (by simpa using hj) (by omega)
    · have hstep : maxByTimestamp best (t :: ts) = maxByTimestamp best ts := by
        simp [maxByTimestamp, hlt]
      rcases ih best with ⟨heq, hall⟩ | ⟨i, hi, heq, hbt, hall, hpre⟩
      · left
        refine ⟨by rw [hstep, heq], ?_⟩
        intro u hu
        rcases List.mem_cons.mp hu with rfl | hu
        · exact not_lt.mp hlt
        · exact hall u hu
      · right
        refine ⟨i + 1, by simpa using hi, ?_, ?_, ?_, ?_⟩
        · rw [hstep, heq]
          rfl
        · simpa using hbt
        · intro u hu
          rcases List.mem_cons.mp hu with rfl | hu
          · exact le_trans (not_lt.mp hlt) (le_of_lt (by simpa using hbt))
          · simpa using hall u hu
        · intro j hj hji
          cases j with
          | zero => exact lt_of_le_of_lt (not_lt.mp hlt) (by simpa using hbt)
          | succ j' => simpa using hpre j' (by simpa using hj) (by omega)

/-- C1: over the collected snapshots of a tick, if any snapshot is playing
the selection returns a playing snapshot — the first playing one from the
preferred `"spotify"` source when present, otherwise the first playing one
in adapter iteration order; with snapshots present but none playing it
returns the snapshot with the maximal capture timestamp, ties resolved in
favour of the earliest adapter. -/
theorem poll_selection_policy (sources : List Source) (tracks : List TrackInfo)
    (htr : collectTracks sources = tracks) :
    ((∃ t ∈ tracks, t.is_playing = true) →
      ∃ r, pollSources sources = some r ∧ r ∈ tracks ∧ r.is_playing = true
        ∧ ((∃ p ∈ tracks, p.is_playing = true ∧ p.source = "spotify") →
            r.source = "spotify")
        ∧ ((∀ p ∈ tracks, p.is_playing = true → p.source ≠ "spotify") →
            tracks.find? (·.is_playing) = some r))
    ∧ (tracks ≠ [] → (∀ t ∈ tracks, t.is_playing = false) →
      ∃ i, ∃ hi : i < tracks.length,
        pollSources sources = some (tracks.get ⟨i, hi⟩)
        ∧ (∀ j, ∀ hj : j < tracks.length,
            (tracks.get ⟨j, hj⟩).timestamp ≤ (tracks.get ⟨i, hi⟩).timestamp)
        ∧ (∀ j, ∀ hj : j < tracks.length, j < i →
            (tracks.get ⟨j, hj⟩).timestamp < (tracks.get ⟨i, hi⟩).timestamp)) := by
  constructor
  · intro hp
    rcases tracks with _ | ⟨t0, rest⟩
    · obtain ⟨t, ht, _⟩ := hp
      cases ht
    · rcases hple : (t0 :: rest).filter (·.is_playing) with _ | ⟨p, ps⟩
      · exfalso
        obtain ⟨u, hu, hup⟩ := hp
        exact List.filter_eq_nil_iff.mp hple u hu hup
      · have hps := pollSources_playing_case sources t0 p rest ps htr hple
        set r := ((p :: ps).find? (fun t => t.source == "spotify")).getD p with hr
        have hrmem : r ∈ (t0 :: rest).filter (·.is_playing) := by
          rw [hple]
          rcases hfind : (p :: ps).find? (fun t => t.source == "spotify") with _ | x
          · simp [hr, hfind]
          · simp only [hr, hfind, Option.getD_some]
            exact List.mem_of_find?_eq_some hfind
        have hmemf := List.mem_filter.mp hrmem
        refine ⟨r, hps, hmemf.1, hmemf.2, ?_, ?_⟩
        · rintro ⟨q, hq, hqp, hqs⟩
          have hqmem : q ∈ (t0 :: rest).filter (·.is_playing) :=
            List.mem_filter.mpr ⟨hq, hqp⟩
          rw [hple] at hqmem
          have hsome : ((p :: ps).find? (fun t => t.source == "spotify")).isSome := by
            rw [List.find?_isSome]
            exact ⟨q, hqmem, by simp [hqs]⟩
          rcases hfind : (p :: ps).find? (fun t => t.source == "spotify") with _ | x
          · rw [hfind] at hsome
            cases hsome
          · have hx : x.source = "spotify" := by
              simpa using List.find?_some hfind
            have hrx : r = x := by simp [hr, hfind]
            rw [hrx]
            exact hx
        · intro hns
          have hnone : (p :: ps).find? (fun t => t.source == "spotify") = none := by
            rcases hfind : (p :: ps).find? (fun t => t.source == "spotify") with _ | x
            · exact hfind
            · exfalso
              have hx : x.source = "spotify" := by
                simpa using List.find?_some hfind
              have hxmem : x ∈ (t0 :: rest).filter (·.is_playing) := by
                rw [hple]
                exact List.mem_of_find?_eq_some hfind
              have hxf := List.mem_filter.mp hxmem
              exact hns x hxf.1 hxf.2 hx
          have hrp : r = p := by simp [hr, hnone]
          rw [hrp, ← filter_head_eq_find, hple]
          rfl
  · intro hne hall
    rcases tracks with _ | ⟨t0, rest⟩
    · exact absurd rfl hne
    · have hpl : (t0 :: rest).filter (·.is_playing) = [] := by
        rw [List.filter_eq_nil_iff]
        intro u hu
        simp [hall u hu]
      have hps := pollSources_paused_case sources t0 rest htr hpl
      rcases maxByTimestamp_spec rest t0 with ⟨heq, hmax⟩ | ⟨i, hi, heq, hbt, hmax, hpre⟩
      · refine ⟨0, by simp, ?_, ?_, ?_⟩
        · rw [hps, heq]
          rfl
        · intro j hj
          cases j with
          | zero => simp
          | succ j' =>
            have hj' : j' < rest.length := by simpa using hj
            simpa using hmax _ (List.get_mem rest j' hj')
        · intro j hj hj0
          omega
      · refine ⟨i + 1, by simpa using hi, ?_, ?_, ?_⟩
        · rw [hps, heq]
          rfl
        · intro j hj
          cases j with
          | zero => exact le_of_lt (by simpa using hbt)
          | succ j' =>
            have hj' : j' < rest.length := by simpa using hj
            simpa using hmax _ (List.get_mem rest j' hj')
        · intro j hj hji
          cases j with
          | zero => simpa using hbt
          | succ j' => simpa using hpre j' (by simpa using hj) (by omega)

/-- The spec's worked example: a paused speaker track captured at tick 10. -/
def pausedSonosTrack : TrackInfo :=
  { source := "sonos", title := "Song A", artist := "a", album := "x",
    album_art_url := none, is_playing := false, timestamp := 10 }

/-- The spec's worked example: a playing cloud track captured at tick 11. -/
def playingSpotifyTrack : TrackInfo :=
  { source := "spotify", title := "Song B", artist := "b", album := "y",
    album_art_url := none, is_playing := true, timestamp := 11 }

/-- A later paused speaker capture used for the timestamp tie-break case. -/
def pausedLaterTrack : TrackInfo :=
  { source := "sonos", title := "Song C", artist := "c", album := "z",
    album_art_url := none, is_playing := false, timestamp := 20 }

/-- C1 witness: the playing-beats-paused example and the most-recent-paused
example evaluated on concrete adapter lists. -/
theorem poll_selection_policy_witness :
    (∃ r, pollSources [⟨true, .track pausedSonosTrack⟩, ⟨true, .track playingSpotifyTrack⟩]
        = some r
      ∧ r ∈ [pausedSonosTrack, playingSpotifyTrack] ∧ r.is_playing = true
      ∧ ((∃ p ∈ [pausedSonosTrack, playingSpotifyTrack],
            p.is_playing = true ∧ p.source = "spotify") → r.source = "spotify")
      ∧ ((∀ p ∈ [pausedSonosTrack, playingSpotifyTrack],
            p.is_playing = true → p.source ≠ "spotify") →
          [pausedSonosTrack, playingSpotifyTrack].find? (·.is_playing) = some r))
    ∧ (∃ i, ∃ hi : i < [pausedSonosTrack, pausedLaterTrack].length,
        pollSources [⟨true, .track pausedSonosTrack⟩, ⟨true, .track pausedLaterTrack⟩]
          = some ([pausedSonosTrack, pausedLaterTrack].get ⟨i, hi⟩)
        ∧ (∀ j, ∀ hj : j < [pausedSonosTrack, pausedLaterTrack].length,
            ([pausedSonosTrack, pausedLaterTrack].get ⟨j, hj⟩).timestamp
              ≤ ([pausedSonosTrack, pausedLaterTrack].get ⟨i, hi⟩).timestamp)
        ∧ (∀ j, ∀ hj : j < [pausedSonosTrack, pausedLaterTrack].length, j < i →
            ([pausedSonosTrack, pausedLaterTrack].get ⟨j, hj⟩).timestamp
              < ([pausedSonosTrack, pausedLaterTrack].get ⟨i, hi⟩).timestamp)) := by
  have h1 := poll_selection_policy
    [⟨true, .track pausedSonosTrack⟩, ⟨true, .track playingSpotifyTrack⟩]
    [pausedSonosTrack, playingSpotifyTrack] (by decide)
  have h2 := poll_selection_policy
    [⟨true, .track pausedSonosTrack⟩, ⟨true, .track pausedLaterTrack⟩]
    [pausedSonosTrack, pausedLaterTrack] (by decide)
  exact ⟨h1.1 (by decide), h2.2 (by decide) (by decide)⟩
